import Mathlib

/-!
# Verification of the labgrid udev resource-matching engine

Shallow embedding of `src/labgrid/resource/udev.py`: the device snapshot
data model, the matching algorithm (`match_single`, ancestor matching,
conjunctive key evaluation), the per-resource state machine
(`USBResource.try_match`), the derived USB-device properties
(`busnum`, `devnum`, `path`, `vendor_id`, `model_id` via `_get_usb_device`),
the composite `USBSDMuxDevice` (computed `avail`, `poll`), and the
attrs-level object semantics of the shared mutable default match dict.
-/

/--
A pyudev device snapshot as consumed by `USBResource.try_match` and the
derived properties: string properties, sysfs attributes, well-known fields,
the udev action tag (`none` models Python `None`, used by the initial
enumeration scan), the ancestor chain (nearest first) and the children.
-/
inductive Device : Type where
  | mk
    (properties : List (String × String))
    (attributes : List (String × String))
    (subsystem : Option String)
    (device_type : Option String)
    (device_node : Option String)
    (sys_path : String)
    (sys_name : String)
    (action : Option String)
    (ancestors : List Device)
    (children : List Device)

def Device.properties : Device → List (String × String)
  | .mk p _ _ _ _ _ _ _ _ _ => p

def Device.attributes : Device → List (String × String)
  | .mk _ a _ _ _ _ _ _ _ _ => a

def Device.subsystem : Device → Option String
  | .mk _ _ s _ _ _ _ _ _ _ => s

def Device.device_type : Device → Option String
  | .mk _ _ _ t _ _ _ _ _ _ => t

def Device.device_node : Device → Option String
  | .mk _ _ _ _ n _ _ _ _ _ => n

def Device.sys_path : Device → String
  | .mk _ _ _ _ _ p _ _ _ _ => p

def Device.sys_name : Device → String
  | .mk _ _ _ _ _ _ n _ _ _ => n

def Device.action : Device → Option String
  | .mk _ _ _ _ _ _ _ a _ _ => a

def Device.ancestors : Device → List Device
  | .mk _ _ _ _ _ _ _ _ anc _ => anc

def Device.children : Device → List Device
  | .mk _ _ _ _ _ _ _ _ _ c => c

/--
`getattr(dev, key, None)` restricted to the well-known snapshot fields the
matching algorithm can reach with a string key; unknown keys yield `none`
(Python: `getattr` default `None`).
-/
def Device.getField (d : Device) (key : String) : Option String :=
  if key = "subsystem" then d.subsystem
  else if key = "device_type" then d.device_type
  else if key = "device_node" then d.device_node
  else if key = "sys_path" then some d.sys_path
  else if key = "sys_name" then some d.sys_name
  else none

/--
`match_single(dev, key, value)` from `USBResource.try_match`: the direct
lookup chain, property first, then sysfs attribute, then snapshot field;
a lookup that returns nothing never equals the expected string value.
-/
def match_single (dev : Device) (key value : String) : Bool :=
  if dev.properties.lookup key = some value then true
  else if dev.attributes.lookup key = some value then true
  else if dev.getField key = some value then true
  else false

/--
`match_ancestors(key, value)` from `USBResource.try_match`: some device in
the incoming device's ancestor chain satisfies the direct lookup.
-/
def match_ancestors (device : Device) (key value : String) : Bool :=
  device.ancestors.any (fun a => match_single a key value)

/--
`k.startswith('@')`: the key begins with the ancestor marker (its first
character, when there is one, is `@`).
-/
def has_marker (key : String) : Bool :=
  key.take 1 = "@"

/--
Evaluation of one match-spec entry inside the key loop of
`USBResource.try_match`: a key starting with the ancestor marker `@` is
checked against the ancestors with the marker stripped (`k[1:]`), any other
key is a direct lookup on the device itself.
-/
def key_match (device : Device) (key value : String) : Bool :=
  if has_marker key then match_ancestors device (key.drop 1) value
  else match_single device key value

/--
The key loop of `USBResource.try_match`: every entry of the match
specification must succeed (conjunctive).
-/
def match_keys (spec : List (String × String)) (device : Device) : Bool :=
  spec.all (fun kv => key_match device kv.1 kv.2)

/--
Resource-local state of a `USBResource`: the match specification (a Python
dict modelled as an insertion-ordered association list), the currently bound
device snapshot, and the availability flag. The field `matchSpec` embeds the
attribute `match` (a Lean keyword). `device` defaults to `None` in the
source; the initial `avail = false` comes from `ManagedResource`
(`resource/common.py`, not part of the sources here), as the spec states:
created with `device = null, available = false`.
-/
structure USBResource where
  matchSpec : List (String × String)
  device : Option Device
  avail : Bool

/--
The action-interpretation tail of `USBResource.try_match` (the block after a
match is found): `None`/`add` binds and warns if already available,
`change`/`move` replaces the device reference, `unbind`/`remove` unbinds;
any other action changes nothing. Returns the new state, the `True` result,
and whether the duplicate-add warning fired. The base `update()` hook is
`pass`.
-/
def apply_action (r : USBResource) (device : Device) : USBResource × Bool × Bool :=
  if device.action = none ∨ device.action = some "add" then
    ({ r with avail := true, device := some device }, true, r.avail)
  else if device.action = some "change" ∨ device.action = some "move" then
    ({ r with device := some device }, true, false)
  else if device.action = some "unbind" ∨ device.action = some "remove" then
    ({ r with avail := false, device := none }, true, false)
  else (r, true, false)

/--
`USBResource.try_match(device)`, parameterised by the dynamically dispatched
`filter_match` hook (the base hook is `fun _ => true`). Returns the new
state, the boolean result, and whether a warning was emitted. While a device
is bound, only `sys_path` identity is checked; while unbound, the match
specification and then the filter hook are evaluated.
-/
def try_match (filter : Device → Bool) (r : USBResource) (device : Device) :
    USBResource × Bool × Bool :=
  match r.device with
  | some bound =>
    if bound.sys_path ≠ device.sys_path then (r, false, false)
    else apply_action r device
  | none =>
    if match_keys r.matchSpec device && filter device then apply_action r device
    else (r, false, false)

/-- Folding a sequence of `try_match` calls over a resource. -/
def run_events (filter : Device → Bool) (r : USBResource) (ds : List Device) :
    USBResource :=
  ds.foldl (fun s d => (try_match filter s d).1) r

/--
`USBResource._get_usb_device()`: the bound device itself when it already is
a `usb`/`usb_device`, otherwise `find_parent('usb', 'usb_device')` — the
nearest ancestor of that subsystem and device type — and `none` when no
device is bound or no such ancestor exists.
-/
def get_usb_device (r : USBResource) : Option Device :=
  match r.device with
  | none => none
  | some d =>
    if d.subsystem ≠ some "usb" ∨ d.device_type ≠ some "usb_device" then
      d.ancestors.find? (fun a =>
        a.subsystem = some "usb" && a.device_type = some "usb_device")
    else some d

/--
Python `int(x)` applied to an optional property value: raises `TypeError`
on a missing value (`int(None)`) and `ValueError` on a non-decimal string,
modelled as `none`.
-/
def pyIntOfProp (v : Option String) : Option Int :=
  v.bind (fun s => s.toInt?)

/--
Python `int(x, 16)` applied to an optional property value: raises on a
missing value or a non-hexadecimal string, modelled as `none`. The positive
hexadecimal digit strings udev delivers are covered exactly.
-/
def pyHexOfProp (v : Option String) : Option Nat :=
  v.bind (fun s =>
    if s.isEmpty then none
    else s.foldl (fun acc c =>
      acc.bind (fun n =>
        if c.isDigit then some (16 * n + (c.toNat - 48))
        else if 'a' ≤ c ∧ c ≤ 'f' then some (16 * n + (c.toNat - 87))
        else if 'A' ≤ c ∧ c ≤ 'F' then some (16 * n + (c.toNat - 55))
        else none)) (some 0))

/--
`USBResource.busnum`: `int(device.properties.get('BUSNUM'))` on the resolved
USB device, `None` (`Except.ok none`) when none resolves; a raised
`TypeError`/`ValueError` is `Except.error`.
-/
def busnum (r : USBResource) : Except String (Option Int) :=
  match get_usb_device r with
  | some d =>
    match pyIntOfProp (d.properties.lookup "BUSNUM") with
    | some n => .ok (some n)
    | none => .error "int() on missing or malformed BUSNUM"
  | none => .ok none

/-- `USBResource.devnum`: as `busnum`, for the `DEVNUM` property. -/
def devnum (r : USBResource) : Except String (Option Int) :=
  match get_usb_device r with
  | some d =>
    match pyIntOfProp (d.properties.lookup "DEVNUM") with
    | some n => .ok (some n)
    | none => .error "int() on missing or malformed DEVNUM"
  | none => .ok none

/--
`USBResource.path`: `str(device.sys_name)` of the resolved USB device, or
`None`; never raises.
-/
def usb_path (r : USBResource) : Option String :=
  (get_usb_device r).map Device.sys_name

/--
`USBResource.vendor_id`: `int(device.properties.get('ID_VENDOR_ID'), 16)` on
the resolved USB device, `None` when none resolves.
-/
def vendor_id (r : USBResource) : Except String (Option Nat) :=
  match get_usb_device r with
  | some d =>
    match pyHexOfProp (d.properties.lookup "ID_VENDOR_ID") with
    | some n => .ok (some n)
    | none => .error "int(x, 16) on missing or malformed ID_VENDOR_ID"
  | none => .ok none

/-- `USBResource.model_id`: as `vendor_id`, for the `ID_MODEL_ID` property. -/
def model_id (r : USBResource) : Except String (Option Nat) :=
  match get_usb_device r with
  | some d =>
    match pyHexOfProp (d.properties.lookup "ID_MODEL_ID") with
    | some n => .ok (some n)
    | none => .error "int(x, 16) on missing or malformed ID_MODEL_ID"
  | none => .ok none

/--
Python truthiness of an optional string (`bool(x)` and the `and` chain in
`USBSDMuxDevice.avail`): `None` and the empty string are falsy.
-/
def truthy : Option String → Bool
  | none => false
  | some s => !s.isEmpty

/--
Resource-local state of a `USBSDMuxDevice`: as `USBResource` but with the
two child device-node paths; the stored `avail` attribute is absent because
the class overrides `avail` with a computed property whose setter discards
writes.
-/
structure USBSDMuxDevice where
  matchSpec : List (String × String)
  device : Option Device
  control_path : Option String
  disk_path : Option String

/--
`USBSDMuxDevice.avail`: `bool(self.disk_path and self.control_path)` —
true iff both child paths are known (non-null, non-empty).
-/
def USBSDMuxDevice.avail (m : USBSDMuxDevice) : Bool :=
  truthy m.disk_path && truthy m.control_path

/--
The action-interpretation tail of the inherited `try_match` on a
`USBSDMuxDevice`: the read of `self.avail` (for the duplicate-add warning)
goes through the computed property, and the assignments to `self.avail` are
discarded by the overriding no-op setter.
-/
def sdmux_apply_action (m : USBSDMuxDevice) (device : Device) :
    USBSDMuxDevice × Bool × Bool :=
  if device.action = none ∨ device.action = some "add" then
    ({ m with device := some device }, true, m.avail)
  else if device.action = some "change" ∨ device.action = some "move" then
    ({ m with device := some device }, true, false)
  else if device.action = some "unbind" ∨ device.action = some "remove" then
    ({ m with device := none }, true, false)
  else (m, true, false)

/--
`USBResource.try_match` as inherited by `USBSDMuxDevice`: identical control
flow, with the overridden `avail` property semantics in the action tail.
-/
def sdmux_try_match (filter : Device → Bool) (m : USBSDMuxDevice) (device : Device) :
    USBSDMuxDevice × Bool × Bool :=
  match m.device with
  | some bound =>
    if bound.sys_path ≠ device.sys_path then (m, false, false)
    else sdmux_apply_action m device
  | none =>
    if match_keys m.matchSpec device && filter device then sdmux_apply_action m device
    else (m, false, false)

/--
`USBSDMuxDevice.poll`: with no bound device both child paths are cleared;
with a bound device and not yet available, the bound device's children are
scanned — a `block`/`disk` child supplies `disk_path`, a `scsi_generic`
child supplies `control_path`. The leading `super().poll()` call reaches
`ManagedResource.poll` (`resource/common.py`, not part of the sources here);
modelled from the spec: the manager drain only feeds events through
`try_match` and changes no resource-local field itself, so it is the
identity on this state.
-/
def sdmux_poll (m : USBSDMuxDevice) : USBSDMuxDevice :=
  match m.device with
  | none => { m with control_path := none, disk_path := none }
  | some d =>
    if !m.avail then
      d.children.foldl (fun acc child =>
        if child.subsystem = some "block" ∧ child.device_type = some "disk" then
          { acc with disk_path := child.device_node }
        else if child.subsystem = some "scsi_generic" then
          { acc with control_path := child.device_node }
        else acc) m
    else m

/--
A Python dict value as stored in the attrs object model: match dicts are
heap objects, and a resource's `match` attribute is a reference into this
store. `attr.ib(default=\x7b\x7d)` evaluates its default once at class
definition time, so every instance constructed without an explicit `match`
argument references the one shared dict at index `sharedDefaultRef`.
-/
structure DictStore where
  dicts : List (List (String × String))

/-- The reference held by every default-constructed resource. -/
def sharedDefaultRef : Nat := 0

/-- The store before any resource is constructed: only the shared default dict, empty. -/
def initialStore : DictStore := ⟨[[]]⟩

/-- Read the dict a reference points to. -/
def DictStore.read (st : DictStore) (ref : Nat) : List (String × String) :=
  st.dicts.getD ref []

/-- Apply an update to the dict a reference points to, in place. -/
def DictStore.update (st : DictStore) (ref : Nat)
    (f : List (String × String) → List (String × String)) : DictStore :=
  ⟨st.dicts.set ref (f (st.dicts.getD ref []))⟩

/--
Python `d[k] = v` on an insertion-ordered dict: an existing key keeps its
position and gets the new value, a new key is appended.
-/
def dictSet (d : List (String × String)) (k v : String) : List (String × String) :=
  if d.any (fun kv => kv.1 = k) then
    d.map (fun kv => if kv.1 = k then (k, v) else kv)
  else d ++ [(k, v)]

/-- Python `d.setdefault(k, v)`: insert only when the key is absent. -/
def dictSetdefault (d : List (String × String)) (k v : String) : List (String × String) :=
  if d.any (fun kv => kv.1 = k) then d else d ++ [(k, v)]

/--
`USBResource.__attrs_post_init__` acting on the match dict the new instance
references: `self.match.setdefault('SUBSYSTEM', 'usb')`. Constructing a
`USBResource` with the default `match` runs this on `sharedDefaultRef`.
-/
def usbResourcePostInit (st : DictStore) (ref : Nat) : DictStore :=
  st.update ref (fun d => dictSetdefault d "SUBSYSTEM" "usb")

/--
`USBSerialPort.__attrs_post_init__` acting on the match dict the new
instance references: `self.match['SUBSYSTEM'] = 'tty'`, then the
superclass post-init.
-/
def usbSerialPortPostInit (st : DictStore) (ref : Nat) : DictStore :=
  usbResourcePostInit (st.update ref (fun d => dictSet d "SUBSYSTEM" "tty")) ref

/--
C3: once a device is bound, `try_match` with any incoming device whose
`sys_path` differs from the bound device's `sys_path` returns failure and
leaves the resource state (device, available flag, and hence every derived
field) unchanged — for every match specification and every filter hook, so
in particular even when the incoming device satisfies all match keys and
the filter.
-/
theorem c3_identity_lock (filter : Device → Bool) (r : USBResource)
    (bound d : Device) (hb : r.device = some bound)
    (hne : bound.sys_path ≠ d.sys_path) :
    try_match filter r d = (r, false, false) := by
  simp [try_match, hb, hne]

def c3_bound_device : Device :=
  .mk [("SUBSYSTEM", "usb")] [] (some "usb") (some "usb_device") none
    "/sys/devices/pci0/usb1" "usb1" (some "add") [] []

def c3_intruder_device : Device :=
  .mk [("SUBSYSTEM", "usb")] [] (some "usb") (some "usb_device") none
    "/sys/devices/pci0/usb2" "usb2" (some "add") [] []

/--
Witness for C3 at concrete inputs: the intruder satisfies the match
specification and the filter, yet is rejected with the state unchanged.
-/
theorem c3_identity_lock_witness :
    match_keys [("SUBSYSTEM", "usb")] c3_intruder_device = true ∧
    try_match (fun _ => true)
      ⟨[("SUBSYSTEM", "usb")], some c3_bound_device, true⟩ c3_intruder_device =
      (⟨[("SUBSYSTEM", "usb")], some c3_bound_device, true⟩, false, false) :=
  ⟨by decide,
    c3_identity_lock (fun _ => true) _ c3_bound_device c3_intruder_device rfl
      (by decide)⟩

/--
C9: while a device is bound, `try_match` accepts any incoming device with
the same `sys_path` and is exactly the action-transition `apply_action`
(which consults neither the match specification nor the filter hook), and
it returns success — sys_path equality alone suffices, for every filter and
every match specification, hence even for a snapshot failing the match keys.
-/
theorem c9_bound_accepts_same_path (filter : Device → Bool) (r : USBResource)
    (bound d : Device) (hb : r.device = some bound)
    (hs : d.sys_path = bound.sys_path) :
    try_match filter r d = apply_action r d ∧
    (try_match filter r d).2.1 = true := by
  have h1 : try_match filter r d = apply_action r d := by
    simp [try_match, hb, hs]
  refine ⟨h1, ?_⟩
  rw [h1]
  unfold apply_action
  split
  · rfl
  · split
    · rfl
    · split
      · rfl
      · rfl

def c9_bound_device : Device :=
  .mk [("SUBSYSTEM", "tty")] [] (some "tty") none (some "/dev/ttyUSB0")
    "/sys/devices/pci0/usb1/tty0" "tty0" (some "add") [] []

def c9_change_snapshot : Device :=
  .mk [] [] none none none "/sys/devices/pci0/usb1/tty0" "tty0"
    (some "change") [] []

/--
Witness for C9 at concrete inputs: the incoming change snapshot fails the
match specification and the filter rejects everything, yet the event is
accepted because the sys_path matches the bound device.
-/
theorem c9_bound_accepts_same_path_witness :
    match_keys [("SUBSYSTEM", "tty")] c9_change_snapshot = false ∧
    try_match (fun _ => false)
      ⟨[("SUBSYSTEM", "tty")], some c9_bound_device, true⟩ c9_change_snapshot =
      apply_action ⟨[("SUBSYSTEM", "tty")], some c9_bound_device, true⟩
        c9_change_snapshot ∧
    (try_match (fun _ => false)
      ⟨[("SUBSYSTEM", "tty")], some c9_bound_device, true⟩
      c9_change_snapshot).2.1 = true :=
  ⟨by decide,
    (c9_bound_accepts_same_path (fun _ => false) _ c9_bound_device
      c9_change_snapshot rfl rfl).1,
    (c9_bound_accepts_same_path (fun _ => false) _ c9_bound_device
      c9_change_snapshot rfl rfl).2⟩

/--
C7: a resource that is already available and bound, offered a matching event
(same `sys_path`) with action `add` or the initial-scan action `None`,
accepts it: the duplicate-add warning is emitted (third component `true`),
`avail` stays true, the device reference is replaced by the new snapshot,
and the call returns success.
-/
theorem c7_duplicate_add_warns (filter : Device → Bool) (r : USBResource)
    (bound d : Device) (hb : r.device = some bound) (hav : r.avail = true)
    (hs : d.sys_path = bound.sys_path)
    (ha : d.action = none ∨ d.action = some "add") :
    try_match filter r d =
      ({ r with avail := true, device := some d }, true, true) := by
  have h1 : try_match filter r d = apply_action r d := by
    simp [try_match, hb, hs]
  rw [h1]
  unfold apply_action
  rw [if_pos ha, hav]

def c7_bound_device : Device :=
  .mk [("SUBSYSTEM", "usb")] [] (some "usb") (some "usb_device") none
    "/sys/devices/pci0/usb1" "usb1" (some "add") [] []

def c7_duplicate_add : Device :=
  .mk [("SUBSYSTEM", "usb")] [] (some "usb") (some "usb_device") none
    "/sys/devices/pci0/usb1" "usb1b" (some "add") [] []

/--
Witness for C7 at concrete inputs: a duplicate add for the bound sys_path
is accepted, warns, and overwrites the device reference.
-/
theorem c7_duplicate_add_warns_witness :
    try_match (fun _ => true)
      ⟨[("SUBSYSTEM", "usb")], some c7_bound_device, true⟩ c7_duplicate_add =
      (⟨[("SUBSYSTEM", "usb")], some c7_duplicate_add, true⟩, true, true) :=
  c7_duplicate_add_warns (fun _ => true) _ c7_bound_device c7_duplicate_add
    rfl rfl rfl (Or.inr rfl)

/--
C4: from the unbound initial state, three matching snapshots sharing one
`sys_path` with actions `add`, `change`, `remove` drive `avail` through
false, true, true, false; the `change` step replaces the device reference
with the change snapshot and the `remove` step clears it.
-/
theorem c4_state_machine (filter : Device → Bool)
    (spec : List (String × String)) (d1 d2 d3 : Device)
    (hm1 : match_keys spec d1 = true) (hf1 : filter d1 = true)
    (hm2 : match_keys spec d2 = true) (hf2 : filter d2 = true)
    (hm3 : match_keys spec d3 = true) (hf3 : filter d3 = true)
    (ha1 : d1.action = some "add") (ha2 : d2.action = some "change")
    (ha3 : d3.action = some "remove")
    (hs2 : d2.sys_path = d1.sys_path) (hs3 : d3.sys_path = d1.sys_path) :
    (USBResource.mk spec none false).avail = false ∧
    run_events filter ⟨spec, none, false⟩ [d1] = ⟨spec, some d1, true⟩ ∧
    run_events filter ⟨spec, none, false⟩ [d1, d2] = ⟨spec, some d2, true⟩ ∧
    run_events filter ⟨spec, none, false⟩ [d1, d2, d3] = ⟨spec, none, false⟩ := by
  have e1 : try_match filter ⟨spec, none, false⟩ d1 =
      (⟨spec, some d1, true⟩, true, false) := by
    simp [try_match, hm1, hf1, apply_action, ha1]
  have e2 : try_match filter ⟨spec, some d1, true⟩ d2 =
      (⟨spec, some d2, true⟩, true, false) := by
    simp [try_match, hs2, apply_action, ha2]
  have e3 : try_match filter ⟨spec, some d2, true⟩ d3 =
      (⟨spec, none, false⟩, true, false) := by
    simp [try_match, hs2, hs3, apply_action, ha3]
  refine ⟨rfl, ?_, ?_, ?_⟩ <;> simp [run_events, e1, e2, e3]

def c4_add_snapshot : Device :=
  .mk [("SUBSYSTEM", "usb")] [] (some "usb") (some "usb_device") none
    "/sys/devices/pci0/usb3" "usb3" (some "add") [] []

def c4_change_snapshot : Device :=
  .mk [("SUBSYSTEM", "usb")] [] (some "usb") (some "usb_device") none
    "/sys/devices/pci0/usb3" "usb3" (some "change") [] []

def c4_remove_snapshot : Device :=
  .mk [("SUBSYSTEM", "usb")] [] (some "usb") (some "usb_device") none
    "/sys/devices/pci0/usb3" "usb3" (some "remove") [] []

/-- Witness for C4 at concrete inputs: the add/change/remove life cycle. -/
theorem c4_state_machine_witness :
    run_events (fun _ => true) ⟨[("SUBSYSTEM", "usb")], none, false⟩
      [c4_add_snapshot] = ⟨[("SUBSYSTEM", "usb")], some c4_add_snapshot, true⟩ ∧
    run_events (fun _ => true) ⟨[("SUBSYSTEM", "usb")], none, false⟩
      [c4_add_snapshot, c4_change_snapshot] =
      ⟨[("SUBSYSTEM", "usb")], some c4_change_snapshot, true⟩ ∧
    run_events (fun _ => true) ⟨[("SUBSYSTEM", "usb")], none, false⟩
      [c4_add_snapshot, c4_change_snapshot, c4_remove_snapshot] =
      ⟨[("SUBSYSTEM", "usb")], none, false⟩ := by
  have h := c4_state_machine (fun _ => true) [("SUBSYSTEM", "usb")]
    c4_add_snapshot c4_change_snapshot c4_remove_snapshot
    (by decide) rfl (by decide) rfl (by decide) rfl
    (by decide) (by decide) (by decide) (by decide) (by decide)
  exact ⟨h.2.1, h.2.2.1, h.2.2.2⟩

/--
C5: for an unbound resource, an ancestor-marked match key succeeds exactly
when some device in the incoming device's ancestor chain satisfies the
direct lookup (`match_single`: property, then attribute, then snapshot
field) for the unprefixed key; and when an ancestor-marked entry of the
match specification is satisfied by no ancestor, the whole `try_match`
fails and leaves the state unchanged.
-/
theorem c5_ancestor_matching (filter : Device → Bool) (r : USBResource)
    (d : Device) (key value : String)
    (hub : r.device = none) (hk : has_marker key = true) :
    (key_match d key value = true ↔
      ∃ a ∈ d.ancestors, match_single a (key.drop 1) value = true) ∧
    ((key, value) ∈ r.matchSpec →
      (∀ a ∈ d.ancestors, match_single a (key.drop 1) value = false) →
      try_match filter r d = (r, false, false)) := by
  constructor
  · simp [key_match, hk, match_ancestors, List.any_eq_true]
  · intro hmem hnone
    have hkm : key_match d key value = false := by
      simp only [key_match, hk, if_true, match_ancestors, List.any_eq_false]
      intro a ha
      simp [hnone a ha]
    have hmk : match_keys r.matchSpec d = false := by
      rw [match_keys, List.all_eq_false]
      exact ⟨(key, value), hmem, by simp [hkm]⟩
    simp [try_match, hub, hmk]

def c5_bare_ancestor : Device :=
  .mk [] [] (some "usb") (some "usb_device") none
    "/sys/devices/pci0/usb4" "usb4" none [] []

def c5_marked_device : Device :=
  .mk [("SUBSYSTEM", "usbmisc")] [] (some "usbmisc") none none
    "/sys/devices/pci0/usb4/misc" "misc" (some "add") [c5_bare_ancestor] []

/--
Witness for C5 at concrete inputs: the device's single ancestor lacks the
looked-up property, so the ancestor-marked key fails and the whole match is
rejected.
-/
theorem c5_ancestor_matching_witness :
    (key_match c5_marked_device "@ID_VENDOR" "DEDITEC" = true ↔
      ∃ a ∈ c5_marked_device.ancestors,
        match_single a ("@ID_VENDOR".drop 1) "DEDITEC" = true) ∧
    try_match (fun _ => true)
      ⟨[("@ID_VENDOR", "DEDITEC")], none, false⟩ c5_marked_device =
      (⟨[("@ID_VENDOR", "DEDITEC")], none, false⟩, false, false) := by
  have h := c5_ancestor_matching (fun _ => true)
    ⟨[("@ID_VENDOR", "DEDITEC")], none, false⟩ c5_marked_device
    "@ID_VENDOR" "DEDITEC" rfl (by decide)
  exact ⟨h.1, h.2 (by decide) (by decide)⟩

/--
C6: with no bound device, or with a bound device that is not a
`usb`/`usb_device` and has no `usb`/`usb_device` ancestor, every derived
accessor (`busnum`, `devnum`, `vendor_id`, `model_id`, `path`) returns the
explicit absent value and does not raise.
-/
theorem c6_derived_absent (r : USBResource)
    (h : r.device = none ∨ ∃ d, r.device = some d ∧
      (d.subsystem ≠ some "usb" ∨ d.device_type ≠ some "usb_device") ∧
      d.ancestors.find? (fun a =>
        a.subsystem = some "usb" && a.device_type = some "usb_device") = none) :
    busnum r = .ok none ∧ devnum r = .ok none ∧ vendor_id r = .ok none ∧
    model_id r = .ok none ∧ usb_path r = none := by
  have hg : get_usb_device r = none := by
    rcases h with h | ⟨d, hd, hcond, hfind⟩
    · simp [get_usb_device, h]
    · simp only [get_usb_device, hd]
      rw [if_pos hcond]
      exact hfind
  simp [busnum, devnum, vendor_id, model_id, usb_path, hg]

/-- Witness for C6 at a concrete input: the freshly constructed resource. -/
theorem c6_derived_absent_witness :
    busnum ⟨[("SUBSYSTEM", "usb")], none, false⟩ = .ok none ∧
    devnum ⟨[("SUBSYSTEM", "usb")], none, false⟩ = .ok none ∧
    vendor_id ⟨[("SUBSYSTEM", "usb")], none, false⟩ = .ok none ∧
    model_id ⟨[("SUBSYSTEM", "usb")], none, false⟩ = .ok none ∧
    usb_path ⟨[("SUBSYSTEM", "usb")], none, false⟩ = none :=
  c6_derived_absent ⟨[("SUBSYSTEM", "usb")], none, false⟩ (Or.inl rfl)

/--
C10: when a USB device does resolve, the integer accessors never return the
absent value; and when that device's properties lack the corresponding key,
each accessor raises (an error from parsing the missing value) rather than
returning absent.
-/
theorem c10_parse_raises_on_missing_property (r : USBResource) (d : Device)
    (hg : get_usb_device r = some d) :
    busnum r ≠ .ok none ∧ devnum r ≠ .ok none ∧
    vendor_id r ≠ .ok none ∧ model_id r ≠ .ok none ∧
    (d.properties.lookup "BUSNUM" = none →
      busnum r = .error "int() on missing or malformed BUSNUM") ∧
    (d.properties.lookup "DEVNUM" = none →
      devnum r = .error "int() on missing or malformed DEVNUM") ∧
    (d.properties.lookup "ID_VENDOR_ID" = none →
      vendor_id r = .error "int(x, 16) on missing or malformed ID_VENDOR_ID") ∧
    (d.properties.lookup "ID_MODEL_ID" = none →
      model_id r = .error "int(x, 16) on missing or malformed ID_MODEL_ID") := by
  refine ⟨?_, ?_, ?_, ?_, ?_, ?_, ?_, ?_⟩
  · cases hv : pyIntOfProp (d.properties.lookup "BUSNUM") <;>
      simp [busnum, hg, hv]
  · cases hv : pyIntOfProp (d.properties.lookup "DEVNUM") <;>
      simp [devnum, hg, hv]
  · cases hv : pyHexOfProp (d.properties.lookup "ID_VENDOR_ID") <;>
      simp [vendor_id, hg, hv]
  · cases hv : pyHexOfProp (d.properties.lookup "ID_MODEL_ID") <;>
      simp [model_id, hg, hv]
  · intro hl; simp [busnum, hg, hl, pyIntOfProp]
  · intro hl; simp [devnum, hg, hl, pyIntOfProp]
  · intro hl; simp [vendor_id, hg, hl, pyHexOfProp]
  · intro hl; simp [model_id, hg, hl, pyHexOfProp]

def c10_propertyless_usb_device : Device :=
  .mk [] [] (some "usb") (some "usb_device") none
    "/sys/devices/pci0/usb5" "usb5" (some "add") [] []

/--
Witness for C10 at concrete inputs: a resolved USB device without the
identification properties makes every integer accessor raise.
-/
theorem c10_parse_raises_on_missing_property_witness :
    busnum ⟨[("SUBSYSTEM", "usb")], some c10_propertyless_usb_device, true⟩ =
      .error "int() on missing or malformed BUSNUM" ∧
    devnum ⟨[("SUBSYSTEM", "usb")], some c10_propertyless_usb_device, true⟩ =
      .error "int() on missing or malformed DEVNUM" ∧
    vendor_id ⟨[("SUBSYSTEM", "usb")], some c10_propertyless_usb_device, true⟩ =
      .error "int(x, 16) on missing or malformed ID_VENDOR_ID" ∧
    model_id ⟨[("SUBSYSTEM", "usb")], some c10_propertyless_usb_device, true⟩ =
      .error "int(x, 16) on missing or malformed ID_MODEL_ID" := by
  have h := c10_parse_raises_on_missing_property
    ⟨[("SUBSYSTEM", "usb")], some c10_propertyless_usb_device, true⟩
    c10_propertyless_usb_device rfl
  exact ⟨h.2.2.2.2.1 rfl, h.2.2.2.2.2.1 rfl,
    h.2.2.2.2.2.2.1 rfl, h.2.2.2.2.2.2.2 rfl⟩

/--
C8: a `USBSDMuxDevice` is available exactly when both the disk-child path
and the control-child path are known (non-null, non-empty) — so it is
unavailable while either is undiscovered, in any discovery order; and after
an `unbind`/`remove` event for the bound device clears the device
reference, the next `poll` clears both paths, leaving the resource
unavailable.
-/
theorem c8_composite_availability :
    (∀ m : USBSDMuxDevice,
      m.avail = true ↔ truthy m.disk_path = true ∧ truthy m.control_path = true) ∧
    ∀ (filter : Device → Bool) (m : USBSDMuxDevice) (bound d : Device),
      m.device = some bound → d.sys_path = bound.sys_path →
      (d.action = some "unbind" ∨ d.action = some "remove") →
      (sdmux_try_match filter m d).1.device = none ∧
      (sdmux_poll (sdmux_try_match filter m d).1).disk_path = none ∧
      (sdmux_poll (sdmux_try_match filter m d).1).control_path = none ∧
      (sdmux_poll (sdmux_try_match filter m d).1).avail = false := by
  constructor
  · intro m
    simp [USBSDMuxDevice.avail]
  · intro filter m bound d hb hs ha
    have h1 : sdmux_try_match filter m d = ({ m with device := none }, true, false) := by
      rcases ha with ha | ha <;>
        simp [sdmux_try_match, hb, hs, sdmux_apply_action, ha]
    rw [h1]
    refine ⟨rfl, ?_, ?_, ?_⟩ <;>
      simp [sdmux_poll, USBSDMuxDevice.avail, truthy]

def c8_mux_bound_device : Device :=
  .mk [("ID_VENDOR_ID", "0424"), ("ID_MODEL_ID", "4041")] [] (some "usb")
    (some "usb_device") none "/sys/devices/pci0/usb6" "usb6" (some "add") [] []

def c8_mux_remove_event : Device :=
  .mk [] [] (some "usb") (some "usb_device") none
    "/sys/devices/pci0/usb6" "usb6" (some "remove") [] []

def c8_mux_state : USBSDMuxDevice :=
  ⟨[("ID_VENDOR_ID", "0424"), ("ID_MODEL_ID", "4041"), ("SUBSYSTEM", "usb")],
    some c8_mux_bound_device, some "/dev/sg0", some "/dev/sda"⟩

/--
Witness for C8 at concrete inputs: a fully discovered multiplexer is
available, and a remove event followed by a poll clears both paths and the
availability.
-/
theorem c8_composite_availability_witness :
    (c8_mux_state.avail = true ↔
      truthy c8_mux_state.disk_path = true ∧
      truthy c8_mux_state.control_path = true) ∧
    (sdmux_try_match (fun _ => true) c8_mux_state c8_mux_remove_event).1.device
      = none ∧
    (sdmux_poll (sdmux_try_match (fun _ => true) c8_mux_state
      c8_mux_remove_event).1).disk_path = none ∧
    (sdmux_poll (sdmux_try_match (fun _ => true) c8_mux_state
      c8_mux_remove_event).1).control_path = none ∧
    (sdmux_poll (sdmux_try_match (fun _ => true) c8_mux_state
      c8_mux_remove_event).1).avail = false :=
  ⟨c8_composite_availability.1 c8_mux_state,
    c8_composite_availability.2 (fun _ => true) c8_mux_state
      c8_mux_bound_device c8_mux_remove_event rfl rfl (Or.inr rfl)⟩

def c1_change_while_unbound : Device :=
  .mk [("SUBSYSTEM", "usb")] [] (some "usb") (some "usb_device") none
    "/sys/devices/pci0/usb7" "usb7" (some "change") [] []

/--
C1 counterexample: a matching `change` event delivered to an unbound
resource is accepted (result `true`) and sets the device reference without
setting the available flag, so the accepted event leaves `device` non-null
while `available` is false — refuting the claimed iff-invariant over all
`try_match` sequences.
-/
theorem c1_invariant_counterexample :
    (try_match (fun _ => true) ⟨[("SUBSYSTEM", "usb")], none, false⟩
      c1_change_while_unbound).2.1 = true ∧
    (try_match (fun _ => true) ⟨[("SUBSYSTEM", "usb")], none, false⟩
      c1_change_while_unbound).1.device.isSome = true ∧
    (try_match (fun _ => true) ⟨[("SUBSYSTEM", "usb")], none, false⟩
      c1_change_while_unbound).1.avail = false := by decide

/-- One `try_match` step preserves: if available then a device is bound. -/
theorem try_match_avail_imp (filter : Device → Bool) (r : USBResource)
    (d : Device) (h : r.avail = true → r.device.isSome = true) :
    (try_match filter r d).1.avail = true →
    (try_match filter r d).1.device.isSome = true := by
  have happ : (apply_action r d).1.avail = true →
      (apply_action r d).1.device.isSome = true := by
    unfold apply_action
    split
    · intro _; simp
    · split
      · intro _; simp
      · split
        · intro hfalse; simp at hfalse
        · exact fun ha => h ha
  rcases hr : r.device with _ | bound
  · simp only [try_match, hr]
    split
    · exact happ
    · exact fun ha => h ha
  · simp only [try_match, hr]
    split
    · intro _; simp [hr]
    · exact happ

/-- Folded over any event sequence, the same implication is preserved. -/
theorem run_events_avail_imp (filter : Device → Bool) (ds : List Device) :
    ∀ r : USBResource, (r.avail = true → r.device.isSome = true) →
    ((run_events filter r ds).avail = true →
      (run_events filter r ds).device.isSome = true) := by
  induction ds with
  | nil => intro r h; simpa [run_events] using h
  | cons d ds ih =>
    intro r h
    have hstep := try_match_avail_imp filter r d h
    have heq : run_events filter r (d :: ds) =
        run_events filter (try_match filter r d).1 ds := rfl
    rw [heq]
    exact ih _ hstep

/--
C1 (amended): for every match specification, filter hook and sequence of
`try_match` calls from the initial state, if the available flag is true
then the device reference is non-null. (The converse direction of the
claimed iff fails, see the counterexample: a matching change/move event
accepted while unbound sets `device` without setting `available`.)
-/
theorem c1_available_implies_bound (spec : List (String × String))
    (filter : Device → Bool) (ds : List Device) :
    (run_events filter ⟨spec, none, false⟩ ds).avail = true →
    (run_events filter ⟨spec, none, false⟩ ds).device.isSome = true :=
  run_events_avail_imp filter ds ⟨spec, none, false⟩ (fun h => Bool.noConfusion h)

def c1_add_event : Device :=
  .mk [("SUBSYSTEM", "usb")] [] (some "usb") (some "usb_device") none
    "/sys/devices/pci0/usb7" "usb7" (some "add") [] []

/-- Witness for the amended C1 at concrete inputs: after an accepted add
the resource is available, hence bound. -/
theorem c1_available_implies_bound_witness :
    (run_events (fun _ => true) ⟨[("SUBSYSTEM", "usb")], none, false⟩
      [c1_add_event]).device.isSome = true :=
  c1_available_implies_bound [("SUBSYSTEM", "usb")] (fun _ => true)
    [c1_add_event] (by decide)

/--
C2: evaluation of the attrs object model at the failing input. Both a
default-constructed `USBResource` and a default-constructed `USBSerialPort`
reference the one dict created when `attr.ib(default=\x7b\x7d)` was
evaluated: after the first construction that shared dict reads
`SUBSYSTEM = usb`, and constructing the serial port rewrites it to
`SUBSYSTEM = tty` — mutating the match specification of the previously
constructed resource, so default-constructed instances do not hold
independent mappings.
-/
theorem c2_shared_default_spec_mutation :
    (usbResourcePostInit initialStore sharedDefaultRef).read sharedDefaultRef =
      [("SUBSYSTEM", "usb")] ∧
    (usbSerialPortPostInit (usbResourcePostInit initialStore sharedDefaultRef)
      sharedDefaultRef).read sharedDefaultRef = [("SUBSYSTEM", "tty")] := by
  decide
